import Mathlib

/-!
Shallow embedding of the preset state machine of the `roon-extension-zone-presets`
extension (`src/main.rs`) and proofs about it.

The Rust code mutates a `GroupingSettings` value in place; here every mutating
function returns the updated state explicitly.  `HashMap<String, _>` values are
modelled as association lists with first-match lookup and replace-in-place
insertion; iteration order of such a map is the list order.  A Rust function
that can panic (`unwrap`, out-of-bounds indexing) is modelled with an `Option`
result where `none` stands for the panic.
-/

namespace ZP

/-- Per the spec (§3), the volume of an output has integer `min`, `max` and `value`.
(The `Output` and `Zone` shapes live in the external `rust_roon_api` crate;
their fields are modelled from the data-model section of the spec.) -/
structure Volume where
  min : Int
  max : Int
  value : Int
deriving DecidableEq, Repr, Inhabited

/-- External read-only snapshot of an audio output (spec §3). -/
structure Output where
  output_id : String
  display_name : String
  can_group_with_output_ids : List String
  volume : Volume
deriving DecidableEq, Repr, Inhabited

/-- External read-only snapshot of a zone (spec §3): an ordered list of member outputs. -/
structure Zone where
  zone_id : String
  display_name : String
  outputs : List Output
deriving DecidableEq, Repr, Inhabited

/-- `enum Action` from `src/main.rs` (discriminants 0..3). -/
inductive Action where
  | Edit
  | Activate
  | Deactivate
  | Delete
deriving DecidableEq, Repr, Inhabited

/-- The `repr(usize)` discriminant of an `Action`. -/
def Action.code : Action → Nat
  | .Edit => 0
  | .Activate => 1
  | .Deactivate => 2
  | .Delete => 3

/-- `enum VolumeType` from `src/main.rs` (discriminants 0..2). -/
inductive VolumeType where
  | Untouched
  | LastUsed
  | Preset
deriving DecidableEq, Repr, Inhabited

/-- The `repr(usize)` discriminant of a `VolumeType`. -/
def VolumeType.code : VolumeType → Nat
  | .Untouched => 0
  | .LastUsed => 1
  | .Preset => 2

/-- `struct Preset` from `src/main.rs`; `volumes : HashMap<String, i32>` is modelled
as an association list. -/
structure Preset where
  name : String
  output_ids : List String
  volume_type : VolumeType
  volumes : List (String × Int)
deriving DecidableEq, Repr, Inhabited

/-- `struct GroupingSettings` from `src/main.rs`.  The derived `Inhabited` default
matches the Rust `Default` (all options `none`, empty string/list, first enum variant). -/
structure GroupingSettings where
  selected : Option Nat
  action : Action
  add : Option String
  primary_output_id : Option String
  volume_output_id : Option String
  volume_level : String
  name : String
  output_ids : List String
  volume_type : VolumeType
  presets : List Preset
  extracted_preset : Option Preset
deriving DecidableEq, Repr, Inhabited

/-- `HashMap::insert`: replace the value in place if the key is present, else append. -/
def hashmap_insert (m : List (String × Int)) (k : String) (v : Int) : List (String × Int) :=
  match m with
  | [] => [(k, v)]
  | (k₀, v₀) :: rest => if k₀ = k then (k, v) :: rest else (k₀, v₀) :: hashmap_insert rest k v

/-- Digits-only parse of a character list (at least one character, all ASCII digits). -/
def parse_digits (cs : List Char) : Option Nat :=
  match cs with
  | [] => none
  | _ =>
    if cs.all (fun c => c.isDigit) then
      some (cs.foldl (fun acc c => acc * 10 + (c.toNat - 48)) 0)
    else none

/-- The Rust `str::parse::<i32>`: optional sign, one or more digits, i32 range. -/
def parse_i32 (s : String) : Option Int :=
  match s.toList with
  | '+' :: rest =>
    match parse_digits rest with
    | some n => if (n : Int) ≤ 2147483647 then some (n : Int) else none
    | none => none
  | '-' :: rest =>
    match parse_digits rest with
    | some n => if (n : Int) ≤ 2147483648 then some (-(n : Int)) else none
    | none => none
  | cs =>
    match parse_digits cs with
    | some n => if (n : Int) ≤ 2147483647 then some (n : Int) else none
    | none => none

/-- `fn store_preset(settings: &mut GroupingSettings) -> Option<()>` from `src/main.rs`.
Returns the Rust result together with the mutated state. -/
def store_preset (settings : GroupingSettings) : Option Unit × GroupingSettings :=
  match settings.add, settings.primary_output_id with
  | some add, some primary_output_id =>
    let name := settings.name
    let output_ids := settings.output_ids
    let (output_ids, settings) :=
      if output_ids.length = 0 then
        (output_ids ++ [primary_output_id],
         { settings with output_ids := settings.output_ids ++ [primary_output_id] })
      else
        (output_ids, settings)
    let (output_ids, settings) :=
      if output_ids.contains add = false then
        (output_ids ++ [add], { settings with output_ids := settings.output_ids ++ [add] })
      else
        (output_ids, settings)
    if 0 < name.length ∧ 0 < output_ids.length then
      let preset : Preset :=
        { name := name, output_ids := output_ids,
          volume_type := VolumeType.Untouched, volumes := [] }
      match settings.selected with
      | some selected =>
        if selected < settings.presets.length then
          (some (), { settings with presets := settings.presets.set selected preset })
        else
          (some (), { settings with selected := some settings.presets.length,
                                    presets := settings.presets ++ [preset] })
      | none => (some (), settings)
    else
      (none, settings)
  | _, _ => (none, settings)

/-- `fn store_volume(settings: &mut GroupingSettings, outputs: &HashMap<String, Output>)`
from `src/main.rs`.  The write of `preset.volume_type` happens before the
`VolumeType::Preset` check, so it persists on every early return past that point. -/
def store_volume (settings : GroupingSettings) (outputs : List (String × Output)) :
    Option Unit × GroupingSettings :=
  match settings.selected with
  | none => (none, settings)
  | some selected =>
    if selected < settings.presets.length then
      let preset := (settings.presets.getD selected default)
      let preset := { preset with volume_type := settings.volume_type }
      let settings := { settings with presets := settings.presets.set selected preset }
      match settings.volume_type with
      | VolumeType.Preset =>
        match settings.volume_output_id with
        | none => (none, settings)
        | some volume_output_id =>
          match
            (if (List.lookup volume_output_id preset.volumes).isNone then
              match List.lookup volume_output_id outputs with
              | none => none
              | some output =>
                some { settings with volume_level := toString output.volume.value }
            else some settings) with
          | none => (none, settings)
          | some settings =>
            match parse_i32 settings.volume_level with
            | some volume_level =>
              let preset :=
                { preset with
                    volumes := hashmap_insert preset.volumes volume_output_id volume_level }
              (some (), { settings with presets := settings.presets.set selected preset })
            | none => (none, settings)
      | _ => (none, settings)
    else
      (none, settings)

/-- `fn load_preset(settings: &mut GroupingSettings, outputs: &HashMap<String, Output>)`
from `src/main.rs`.  `none` models the panic on `preset.output_ids[0]` when the
loaded preset has no outputs. -/
def load_preset (settings : GroupingSettings) (outputs : List (String × Output)) :
    Option GroupingSettings :=
  match settings.selected with
  | none => some settings
  | some selected =>
    if selected < settings.presets.length then
      let preset := settings.presets.getD selected default
      match preset.output_ids with
      | [] => none
      | first :: _ =>
        let settings :=
          { settings with
              name := preset.name
              primary_output_id := some first
              output_ids := preset.output_ids
              add := none }
        match settings.volume_output_id with
        | none => some settings
        | some volume_output_id =>
          match List.lookup volume_output_id preset.volumes with
          | some volume_level => some { settings with volume_level := toString volume_level }
          | none =>
            match List.lookup volume_output_id outputs with
            | some output =>
              let volume_level := output.volume.value
              let preset :=
                { preset with
                    volumes := hashmap_insert preset.volumes volume_output_id volume_level }
              some { settings with
                       presets := settings.presets.set selected preset
                       volume_level := toString volume_level }
            | none => some settings
    else
      match settings.extracted_preset with
      | some preset =>
        match preset.output_ids with
        | [] => none
        | first :: _ =>
          let settings :=
            { settings with
                name := preset.name
                primary_output_id := some first
                output_ids := preset.output_ids
                action := Action.Edit }
          some { settings with add := settings.output_ids.get? 0 }
      | none =>
        some { settings with
                 name := ""
                 primary_output_id := none
                 output_ids := []
                 action := Action.Edit
                 add := none }

/-- The inner match test of `fn match_preset`: same output count and positionally
equal output ids (the `zip`/`filter`/`count` computation of `src/main.rs`). -/
def zone_match_check (preset : Preset) (zone : Zone) : Bool :=
  if zone.outputs.length = preset.output_ids.length then
    let output_ids := zone.outputs.map (fun output => output.output_id)
    let match_count :=
      ((preset.output_ids.zip output_ids).filter (fun ab => ab.1 = ab.2)).length
    match_count = preset.output_ids.length
  else
    false

/-- `fn match_preset(presets, zones)` from `src/main.rs`: the nested first-match loops. -/
def match_preset (presets : List Preset) (zones : List Zone) : Option (Preset × Zone) :=
  presets.findSome? (fun preset =>
    zones.findSome? (fun zone =>
      if zone_match_check preset zone then some (preset, zone) else none))

/-- `fn extract_preset(zones)` from `src/main.rs`: skeletal preset from the first
zone with more than one output. -/
def extract_preset (zones : List Zone) : Option Preset :=
  zones.findSome? (fun zone =>
    if 1 < zone.outputs.length then
      some { name := zone.display_name
             output_ids := zone.outputs.map (fun output => output.output_id)
             volume_type := VolumeType.Untouched
             volumes := [] }
    else none)

/-- A title/value entry of the `values` list of a dropdown.  The Rust code builds
these as two-key maps from field name to JSON value; the value is a JSON null,
number or string. -/
inductive JsonValue where
  | null
  | nat (n : Nat)
  | str (s : String)
deriving DecidableEq, Repr, Inhabited

/-- One dropdown entry (`title` is always a string in the source). -/
structure SettingOption where
  title : String
  value : JsonValue
deriving DecidableEq, Repr, Inhabited

/-- `settings::Dropdown` widget fields as used by `make_layout`. -/
structure Dropdown where
  title : String
  subtitle : Option String
  values : List SettingOption
  setting : String
deriving DecidableEq, Repr, Inhabited

/-- `settings::Textbox` widget fields as used by `make_layout`. -/
structure Textbox where
  title : String
  subtitle : Option String
  setting : String
deriving DecidableEq, Repr, Inhabited

/-- `settings::Label` widget fields as used by `make_layout`. -/
structure Label where
  title : String
  subtitle : Option String
deriving DecidableEq, Repr, Inhabited

/-- `settings::Integer` widget fields as used by `make_layout` (`min`/`max` are strings). -/
structure Integer where
  title : String
  subtitle : Option String
  min : String
  max : String
  setting : String
  error : Option String
deriving DecidableEq, Repr, Inhabited

/-- `settings::Widget`: the widget tree built by `make_layout`. -/
inductive Widget where
  | Dropdown (d : Dropdown)
  | Textbox (t : Textbox)
  | Group (title : String) (subtitle : Option String) (collapsable : Bool)
      (items : List Widget)
  | Label (l : Label)
  | Integer (i : Integer)
deriving Inhabited

/-- `settings::Layout<GroupingSettings>` as produced by `make_layout`. -/
structure Layout where
  settings : GroupingSettings
  widgets : List Widget
  has_error : Bool
deriving Inhabited

/-- Modelled from the spec: `rust_roon_api::settings::Integer::out_of_range` is not part
of the sources of this repository.  Per the spec (§4.4), the entered level is out of range
exactly when it lies outside `[min, max]`; a non-numeric entry is a parse failure
(`Err` in Rust, `none` here), in which case no range result is produced. -/
def out_of_range (lo hi value : String) : Option Bool :=
  match parse_i32 value, parse_i32 lo, parse_i32 hi with
  | some v, some l, some h => some (decide (v < l) || decide (h < v))
  | _, _, _ => none

/-- Mapping a list through a fallible function, failing (panicking caller) on the
first `none`; models a Rust `for` loop that `unwrap`s a lookup per element. -/
def map_option (f : α → Option β) : List α → Option (List β)
  | [] => some []
  | x :: xs =>
    match f x with
    | none => none
    | some y =>
      match map_option f xs with
      | none => none
      | some ys => some (y :: ys)

/-- The "Primary Output" dropdown entries: a null placeholder followed by every known
output, in the iteration order of the map (`make_layout`, lines 258-266). -/
def primary_output_values (outputs : List (String × Output)) : List SettingOption :=
  ⟨"(select output)", JsonValue.null⟩ ::
    outputs.map (fun p => ⟨p.2.display_name, JsonValue.str p.1⟩)

/-- The "Group With" dropdown entries (`make_layout`, lines 279-287): the outputs
groupable with the primary, except the primary itself; each display name comes
from a map lookup that is `unwrap`ped, so a missing id panics (`none`). -/
def group_with_values (output : Output) (primary_output_id : String)
    (outputs : List (String × Output)) : Option (List SettingOption) :=
  match
    map_option
      (fun output_id =>
        match List.lookup output_id outputs with
        | none => none
        | some o => some (⟨o.display_name, JsonValue.str output_id⟩ : SettingOption))
      (output.can_group_with_output_ids.filter (fun output_id => output_id ≠ primary_output_id))
  with
  | none => none
  | some opts => some (⟨"(select output)", JsonValue.null⟩ :: opts)

/-- The "Volume Control" dropdown entries (`make_layout`, lines 296–301). -/
def volume_control_values : List SettingOption :=
  [⟨"(select volume control)", JsonValue.null⟩,
   ⟨"Untouched", JsonValue.nat VolumeType.Untouched.code⟩,
   ⟨"Last Used", JsonValue.nat VolumeType.LastUsed.code⟩,
   ⟨"Preset", JsonValue.nat VolumeType.Preset.code⟩]

/-- The volume "Output" dropdown entries (`make_layout`, lines 311–319), scoped to
`settings.output_ids`; a missing id panics (`none`). -/
def volume_output_values (output_ids : List String) (outputs : List (String × Output)) :
    Option (List SettingOption) :=
  match
    map_option
      (fun output_id =>
        match List.lookup output_id outputs with
        | none => none
        | some o => some (⟨o.display_name, JsonValue.str output_id⟩ : SettingOption))
      output_ids
  with
  | none => none
  | some opts => some (⟨"(select output)", JsonValue.null⟩ :: opts)

/-- The "Volume Level" integer field (`make_layout`, lines 328–347): bounds from the
live volume of the chosen output, with the range-validation error message attached when
`out_of_range` reports `true`.  The `unwrap`ped lookup panics on a missing id. -/
def volume_level_widget (output_id : String) (volume_level : String)
    (outputs : List (String × Output)) : Option Widget :=
  match List.lookup output_id outputs with
  | none => none
  | some output =>
    let w : Integer :=
      { title := "Volume Level", subtitle := none,
        min := toString output.volume.min, max := toString output.volume.max,
        setting := "volume_level", error := none }
    let w :=
      match out_of_range w.min w.max volume_level with
      | some true =>
        { w with error := some ("Volume level should be between " ++ w.min ++ " and " ++ w.max) }
      | _ => w
    some (Widget.Integer w)

/-- The "Action" dropdown entries (`make_layout`, lines 224–230). -/
def action_values : List SettingOption :=
  [⟨"(select action)", JsonValue.null⟩,
   ⟨"Activate", JsonValue.nat Action.Activate.code⟩,
   ⟨"Deactivate", JsonValue.nat Action.Deactivate.code⟩,
   ⟨"Edit", JsonValue.nat Action.Edit.code⟩,
   ⟨"Delete", JsonValue.nat Action.Delete.code⟩]

/-- The items of the collapsible "Preset Editor" group (`make_layout`, lines 243–353):
a name textbox, then — once the name is non-empty — the primary-output dropdown and,
for a known primary, the Group With / Volume Control dropdowns, and in `Preset`
volume mode the volume-output dropdown and the volume-level field. -/
def edit_group_items (settings : GroupingSettings) (outputs : List (String × Output)) :
    Option (List Widget) :=
  let items : List Widget := [Widget.Textbox ⟨"Name", none, "name"⟩]
  if 0 < settings.name.length then
    let items := items ++
      [Widget.Dropdown ⟨"Primary Output", none, primary_output_values outputs,
        "primary_output_id"⟩]
    match settings.primary_output_id with
    | some primary_output_id =>
      match List.lookup primary_output_id outputs with
      | some output =>
        match group_with_values output primary_output_id outputs with
        | none => none
        | some gw =>
          let items := items ++ [Widget.Dropdown ⟨"Group With", none, gw, "add"⟩]
          let items := items ++
            [Widget.Dropdown ⟨"Volume Control", none, volume_control_values, "volume_type"⟩]
          match settings.volume_type with
          | VolumeType.Preset =>
            match volume_output_values settings.output_ids outputs with
            | none => none
            | some vv =>
              let items := items ++
                [Widget.Dropdown ⟨"Output", none, vv, "volume_output_id"⟩]
              match settings.volume_output_id with
              | some output_id =>
                match volume_level_widget output_id settings.volume_level outputs with
                | none => none
                | some w => some (items ++ [w])
              | none => some items
          | _ => some items
      | none => some items
    | none => some items
  else
    some items

/-- The read-only summary label (`make_layout`, lines 360-378): the display name of
the primary (a lookup that is `unwrap`ped, so a missing primary panics) plus one
line per other member that is present in the outputs map. -/
def grouped_label (settings : GroupingSettings) (primary_output_id : String)
    (outputs : List (String × Output)) : Option Widget :=
  match List.lookup primary_output_id outputs with
  | none => none
  | some output =>
    let name := output.display_name
    let subtitle := settings.output_ids.foldl
      (fun acc output_id =>
        if output_id = primary_output_id then acc
        else
          match List.lookup output_id outputs with
          | some sec_output => acc ++ "\n" ++ sec_output.display_name
          | none => acc)
      "Grouped with:"
    some (Widget.Label ⟨name, some subtitle⟩)

/-- `fn make_layout(settings, outputs)` from `src/main.rs`.  `none` models a panic on
one of the `unwrap`ped output lookups.  Note that the Rust function binds
`let has_error = false;` once and never updates it, so the returned flag is
always `false`. -/
def make_layout (settings : GroupingSettings) (outputs : List (String × Output)) :
    Option Layout :=
  let has_error := false
  let preset_list : List SettingOption :=
    ⟨"(select preset)", JsonValue.null⟩ ::
      ((List.range settings.presets.length).filterMap (fun index =>
        let name := (settings.presets.getD index default).name
        if 0 < name.length then some ⟨name, JsonValue.nat index⟩ else none)
      ++ [⟨"New Preset", JsonValue.nat settings.presets.length⟩])
  let widgets : List Widget := [Widget.Dropdown ⟨"Preset", none, preset_list, "selected"⟩]
  match settings.selected with
  | none => some { settings := settings, widgets := widgets, has_error := has_error }
  | some sel =>
    let is_new_preset := sel = settings.presets.length
    let widgets :=
      if is_new_preset then widgets
      else widgets ++ [Widget.Dropdown ⟨"Action", none, action_values, "action"⟩]
    match
      (match settings.action with
       | Action.Edit =>
         match edit_group_items settings outputs with
         | none => none
         | some items => some (widgets ++ [Widget.Group "Preset Editor" none true items])
       | _ => some widgets) with
    | none => none
    | some widgets =>
      match
        (match settings.primary_output_id with
         | some primary_output_id =>
           match grouped_label settings primary_output_id outputs with
           | none => none
           | some label => some (widgets ++ [label])
         | none => some widgets) with
      | none => none
      | some widgets =>
        some { settings := settings, widgets := widgets, has_error := has_error }

/-! ## Spec-side predicates and analysis helpers -/

/-- The matching condition of the spec (§8): same output count and positionally equal
output ids. -/
def preset_matches (preset : Preset) (zone : Zone) : Prop :=
  preset.output_ids.length = zone.outputs.length ∧
  ∀ i, i < preset.output_ids.length →
    preset.output_ids.getD i "" = (zone.outputs.getD i default).output_id

/-- The `volumes` invariant of the spec (§3): every key of the `volumes` map of a
preset appears in its `output_ids`. -/
def preset_volumes_wf (preset : Preset) : Prop :=
  ∀ kv ∈ preset.volumes, kv.1 ∈ preset.output_ids

/-- The `volumes` invariant for every stored preset of a `GroupingSettings`. -/
def settings_volumes_wf (settings : GroupingSettings) : Prop :=
  ∀ p ∈ settings.presets, preset_volumes_wf p

instance (pr : Preset) : Decidable (preset_volumes_wf pr) := by
  unfold preset_volumes_wf
  infer_instance

instance (s : GroupingSettings) : Decidable (settings_volumes_wf s) := by
  unfold settings_volumes_wf
  infer_instance

/-- The `error` fields of the `Integer` widgets of one widget (descending one level
into a `Group`, which is as deep as `make_layout` nests). -/
def integer_errors_in (w : Widget) : List (Option String) :=
  match w with
  | .Integer i => [i.error]
  | .Group _ _ _ items =>
    items.foldr (fun it acc =>
      (match it with | Widget.Integer i => [i.error] | _ => []) ++ acc) []
  | _ => []

/-- All `Integer`-widget `error` fields of a rendered layout, in order. -/
def layout_integer_errors (l : Layout) : List (Option String) :=
  l.widgets.foldr (fun w acc => integer_errors_in w ++ acc) []

/-! ## Concrete instances used by witnesses and counterexamples -/

/-- An output "A" that can group with "B", volume range 0..100, current value 30. -/
def out_A : Output :=
  { output_id := "A", display_name := "Main", can_group_with_output_ids := ["A", "B"],
    volume := { min := 0, max := 100, value := 30 } }

/-- An output "B", volume range 0..100, current value 30. -/
def out_B : Output :=
  { output_id := "B", display_name := "Sub", can_group_with_output_ids := [],
    volume := { min := 0, max := 100, value := 30 } }

/-- An outputs map holding exactly "A" and "B". -/
def two_outputs : List (String × Output) := [("A", out_A), ("B", out_B)]

/-- A live zone whose members are, in order, "A" and "B". -/
def zone_AB : Zone := { zone_id := "z1", display_name := "Main + Sub", outputs := [out_A, out_B] }

/-- A stored preset grouping "A" then "B". -/
def preset_AB : Preset :=
  { name := "Kitchen", output_ids := ["A", "B"],
    volume_type := VolumeType.Untouched, volumes := [] }

/-- Settings mid-edit of the preset over "A" and "B" in `Preset` volume mode, with the
volume output "B" chosen and the given text in the volume-level field. -/
def volume_preset_settings (volume_level : String) : GroupingSettings :=
  { (default : GroupingSettings) with
      selected := some 0, action := Action.Edit,
      primary_output_id := some "A", volume_output_id := some "B",
      volume_level := volume_level, name := "Kitchen", output_ids := ["A", "B"],
      volume_type := VolumeType.Preset,
      presets := [{ preset_AB with volume_type := VolumeType.Preset }] }

/-- Settings with an empty name and no selection, but with `add` and
`primary_output_id` filled in. -/
def empty_name_settings : GroupingSettings :=
  { (default : GroupingSettings) with
      add := some "B", primary_output_id := some "A" }

/-- The create-preset scenario start state of the spec (§8). -/
def create_settings : GroupingSettings :=
  { (default : GroupingSettings) with
      add := some "B", primary_output_id := some "A",
      name := "Kitchen", selected := some 0 }

/-- Settings selecting stored preset 0 with a pending `Activate` action. -/
def activate_settings : GroupingSettings :=
  { (default : GroupingSettings) with
      selected := some 0, action := Action.Activate,
      presets := [{ name := "P", output_ids := ["A"],
                    volume_type := VolumeType.Untouched, volumes := [] }] }

/-- Settings selecting stored preset 0 while the form chooses `LastUsed` volume mode. -/
def lastused_settings : GroupingSettings :=
  { (default : GroupingSettings) with
      selected := some 0, volume_type := VolumeType.LastUsed,
      presets := [{ name := "P", output_ids := ["A"],
                    volume_type := VolumeType.Untouched, volumes := [] }] }

/-- Settings in `Preset` volume mode whose `volume_output_id` ("B") is not a member of
the selected preset (which only groups "A"). -/
def stray_volume_settings : GroupingSettings :=
  { (default : GroupingSettings) with
      selected := some 0, volume_type := VolumeType.Preset,
      volume_output_id := some "B", volume_level := "50",
      presets := [{ name := "P", output_ids := ["A"],
                    volume_type := VolumeType.Preset, volumes := [] }] }

/-- Settings whose `primary_output_id` ("A") is absent from the outputs map. -/
def missing_primary_settings : GroupingSettings :=
  { (default : GroupingSettings) with
      selected := some 0, primary_output_id := some "A" }

/-! ## Helper lemmas -/

theorem mem_of_hashmap_insert {m : List (String × Int)} {k : String} {v : Int}
    {kv : String × Int} (h : kv ∈ hashmap_insert m k v) : kv = (k, v) ∨ kv ∈ m := by
  induction m with
  | nil => simpa [hashmap_insert] using h
  | cons hd tl ih =>
    obtain ⟨k₀, v₀⟩ := hd
    simp only [hashmap_insert] at h
    by_cases hk : k₀ = k
    · simp [hk] at h
      rcases h with h | h
      · exact Or.inl (by simp [h])
      · exact Or.inr (List.mem_cons_of_mem _ h)
    · simp [hk] at h
      rcases h with h | h
      · exact Or.inr (by simp [h])
      · rcases ih h with h' | h'
        · exact Or.inl h'
        · exact Or.inr (List.mem_cons_of_mem _ h')

theorem map_option_isSome {f : α → Option β} :
    ∀ {l : List α}, (∀ x ∈ l, (f x).isSome) → (map_option f l).isSome := by
  intro l
  induction l with
  | nil => intro _; simp [map_option]
  | cons x xs ih =>
    intro h
    have hx := h x (List.mem_cons_self x xs)
    obtain ⟨y, hy⟩ := Option.isSome_iff_exists.mp hx
    have hxs := ih (fun a ha => h a (List.mem_cons_of_mem x ha))
    obtain ⟨ys, hys⟩ := Option.isSome_iff_exists.mp hxs
    simp [map_option, hy, hys]

theorem findSome_isSome_iff {f : α → Option β} :
    ∀ {l : List α}, (l.findSome? f).isSome ↔ ∃ a ∈ l, (f a).isSome := by
  intro l
  induction l with
  | nil => simp [List.findSome?]
  | cons x xs ih =>
    rw [List.findSome?_cons]
    cases hx : f x with
    | some y => simp [hx]
    | none =>
      simp only [ih]
      constructor
      · rintro ⟨a, ha, hfa⟩
        exact ⟨a, List.mem_cons_of_mem x ha, hfa⟩
      · rintro ⟨a, ha, hfa⟩
        rcases List.mem_cons.mp ha with rfl | ha
        · simp [hx] at hfa
        · exact ⟨a, ha, hfa⟩

theorem findSome_eq_some_mem {f : α → Option β} {b : β} :
    ∀ {l : List α}, l.findSome? f = some b → ∃ a ∈ l, f a = some b := by
  intro l
  induction l with
  | nil => simp [List.findSome?]
  | cons x xs ih =>
    rw [List.findSome?_cons]
    cases hx : f x with
    | some y =>
      intro h
      refine ⟨x, List.mem_cons_self x xs, ?_⟩
      rw [hx]
      exact h
    | none =>
      intro h
      obtain ⟨a, ha, hfa⟩ := ih h
      exact ⟨a, List.mem_cons_of_mem x ha, hfa⟩

theorem filter_zip_eq_length_iff :
    ∀ (l₁ l₂ : List String), l₁.length = l₂.length →
      ((((l₁.zip l₂).filter (fun ab => ab.1 = ab.2)).length = l₁.length) ↔ l₁ = l₂) := by
  intro l₁
  induction l₁ with
  | nil =>
    intro l₂ h
    cases l₂ with
    | nil => simp
    | cons b t₂ => simp at h
  | cons a t ih =>
    intro l₂ h
    cases l₂ with
    | nil => simp at h
    | cons b t₂ =>
      have ht : t.length = t₂.length := by simpa using h
      by_cases hab : a = b
      · subst hab
        have hstep : ((a :: t).zip (a :: t₂)).filter (fun ab => ab.1 = ab.2) =
            (a, a) :: (t.zip t₂).filter (fun ab => ab.1 = ab.2) := by
          simp [List.filter_cons]
        rw [hstep, List.length_cons, List.length_cons]
        constructor
        · intro hlen
          have := (ih t₂ ht).mp (Nat.succ_injective hlen)
          simp [this]
        · intro heq
          have h2 : t = t₂ := by simpa using heq
          rw [(ih t₂ ht).mpr h2]
      · have hle : ((t.zip t₂).filter (fun ab => ab.1 = ab.2)).length ≤ t.length := by
          calc ((t.zip t₂).filter (fun ab => ab.1 = ab.2)).length
              ≤ (t.zip t₂).length := List.length_filter_le _ _
            _ ≤ t.length := by rw [List.length_zip]; omega
        have hstep : ((a :: t).zip (b :: t₂)).filter (fun ab => ab.1 = ab.2) =
            (t.zip t₂).filter (fun ab => ab.1 = ab.2) := by
          simp [List.filter_cons, hab]
        rw [hstep, List.length_cons]
        constructor
        · intro hlen
          omega
        · intro heq
          have : a = b := by injection heq
          exact absurd this hab

theorem preset_matches_iff_map_eq (preset : Preset) (zone : Zone) :
    preset_matches preset zone ↔
      preset.output_ids = zone.outputs.map (fun output => output.output_id) := by
  constructor
  · rintro ⟨hlen, hpt⟩
    apply List.ext_getElem (by simpa using hlen)
    intro n h₁ h₂
    have hz : n < zone.outputs.length := by simpa using h₂
    have := hpt n h₁
    rw [List.getD_eq_getElem _ _ h₁, List.getD_eq_getElem _ _ hz] at this
    simpa [List.getElem_map] using this
  · intro h
    have hlen : preset.output_ids.length = zone.outputs.length := by
      rw [h]; simp
    refine ⟨hlen, ?_⟩
    intro i hi
    have hz : i < zone.outputs.length := by omega
    rw [List.getD_eq_getElem _ _ hi, List.getD_eq_getElem _ _ hz]
    have := List.getElem_of_eq h hi
    rw [this]
    simp [List.getElem_map]

theorem zone_match_check_iff (preset : Preset) (zone : Zone) :
    zone_match_check preset zone = true ↔ preset_matches preset zone := by
  unfold zone_match_check
  by_cases hlen : zone.outputs.length = preset.output_ids.length
  · rw [if_pos hlen]
    have hlen' : preset.output_ids.length =
        (zone.outputs.map (fun output => output.output_id)).length := by
      simpa using hlen.symm
    rw [decide_eq_true_eq]
    rw [filter_zip_eq_length_iff _ _ hlen']
    exact (preset_matches_iff_map_eq preset zone).symm
  · rw [if_neg hlen]
    simp only [Bool.false_eq_true, false_iff]
    rintro ⟨h, -⟩
    exact hlen h.symm

/-- C2: `match_preset` returns a pair exactly when some preset and zone agree
positionally on their output ids, and any returned pair satisfies that condition. -/
theorem C2_match_preset_characterization (presets : List Preset) (zones : List Zone) :
    ((match_preset presets zones).isSome ↔
      ∃ p ∈ presets, ∃ z ∈ zones, preset_matches p z) ∧
    (∀ p z, match_preset presets zones = some (p, z) →
      p ∈ presets ∧ z ∈ zones ∧ preset_matches p z) := by
  constructor
  · unfold match_preset
    rw [findSome_isSome_iff]
    constructor
    · rintro ⟨p, hp, hinner⟩
      rw [findSome_isSome_iff] at hinner
      obtain ⟨z, hz, hcheck⟩ := hinner
      refine ⟨p, hp, z, hz, ?_⟩
      by_cases h : zone_match_check p z
      · exact (zone_match_check_iff p z).mp h
      · simp [h] at hcheck
    · rintro ⟨p, hp, z, hz, hm⟩
      refine ⟨p, hp, ?_⟩
      rw [findSome_isSome_iff]
      refine ⟨z, hz, ?_⟩
      rw [(zone_match_check_iff p z).mpr hm]
      simp
  · intro p z h
    unfold match_preset at h
    obtain ⟨p', hp', hinner⟩ := findSome_eq_some_mem h
    obtain ⟨z', hz', hcheck⟩ := findSome_eq_some_mem hinner
    by_cases hc : zone_match_check p' z'
    · rw [if_pos hc] at hcheck
      injection hcheck with h1
      rw [Prod.mk.injEq] at h1
      obtain ⟨rfl, rfl⟩ := h1
      exact ⟨hp', hz', (zone_match_check_iff p' z').mp hc⟩
    · rw [if_neg hc] at hcheck
      exact absurd hcheck (by simp)

/-- Witness for C2 at the singleton preset and zone lists over "A" and "B". -/
theorem C2_match_preset_characterization_witness :
    preset_AB ∈ [preset_AB] ∧ zone_AB ∈ [zone_AB] ∧ preset_matches preset_AB zone_AB :=
  (C2_match_preset_characterization [preset_AB] [zone_AB]).2 preset_AB zone_AB rfl

theorem string_eq_empty_of_length {s : String} (h : s.length = 0) : s = "" := by
  cases s with
  | mk data =>
    simp [String.length] at h
    simp [h]

theorem string_ne_empty_of_length {s : String} (h : 0 < s.length) : ¬ s = "" := by
  intro he
  subst he
  exact absurd h (by decide)

theorem store_preset_not_actionable {s : GroupingSettings}
    (h : s.add = none ∨ s.primary_output_id = none) : store_preset s = (none, s) := by
  unfold store_preset
  rcases h with h | h
  · rw [h]
  · rw [h]
    cases s.add <;> rfl

theorem store_preset_preserves_inputs (s : GroupingSettings) :
    (store_preset s).2.add = s.add ∧
    (store_preset s).2.primary_output_id = s.primary_output_id ∧
    (store_preset s).2.name = s.name ∧
    (store_preset s).2.volume_type = s.volume_type ∧
    (store_preset s).2.volume_output_id = s.volume_output_id ∧
    (store_preset s).2.extracted_preset = s.extracted_preset := by
  unfold store_preset
  cases hadd : s.add with
  | none => simp [hadd]
  | some a =>
    cases hprim : s.primary_output_id with
    | none => simp [hadd, hprim]
    | some p =>
      simp only [hadd, hprim]
      split <;> split <;> split <;> simp_all <;> split <;> simp_all <;> split <;> simp_all

theorem store_preset_output_ids {s : GroupingSettings} {a p : String}
    (hadd : s.add = some a) (hprim : s.primary_output_id = some p) :
    (store_preset s).2.output_ids =
      (if s.output_ids.length = 0 then
        (if (s.output_ids ++ [p]).contains a = false then s.output_ids ++ [p] ++ [a]
         else s.output_ids ++ [p])
       else
        (if s.output_ids.contains a = false then s.output_ids ++ [a]
         else s.output_ids)) := by
  unfold store_preset
  simp only [hadd, hprim]
  (repeat' split) <;> simp_all

theorem store_preset_output_ids_nonempty {s : GroupingSettings} {a p : String}
    (hadd : s.add = some a) (hprim : s.primary_output_id = some p) :
    0 < (store_preset s).2.output_ids.length := by
  rw [store_preset_output_ids hadd hprim]
  split_ifs with h1 h2 h3
  · simp [List.length_append]
  · simp [List.length_append]
  · simp [List.length_append]
  · omega

theorem store_preset_output_ids_mem {s : GroupingSettings} {a p : String}
    (hadd : s.add = some a) (hprim : s.primary_output_id = some p) :
    a ∈ (store_preset s).2.output_ids := by
  rw [store_preset_output_ids hadd hprim]
  split_ifs <;> simp_all [List.elem_iff]

theorem store_preset_output_ids_noop {s : GroupingSettings} {a p : String}
    (hadd : s.add = some a) (hprim : s.primary_output_id = some p)
    (hne : 0 < s.output_ids.length) (hmem : a ∈ s.output_ids) :
    (store_preset s).2.output_ids = s.output_ids := by
  rw [store_preset_output_ids hadd hprim]
  rw [if_neg (by omega)]
  rw [if_neg (by simp [List.elem_iff, hmem])]

theorem store_preset_presets_selected {s : GroupingSettings}
    (h : s.name = "" ∨ s.selected = none) :
    (store_preset s).2.presets = s.presets ∧ (store_preset s).2.selected = s.selected := by
  cases hadd : s.add with
  | none => rw [store_preset_not_actionable (Or.inl hadd)]; exact ⟨rfl, rfl⟩
  | some a =>
    cases hprim : s.primary_output_id with
    | none => rw [store_preset_not_actionable (Or.inr hprim)]; exact ⟨rfl, rfl⟩
    | some p =>
      unfold store_preset
      simp only [hadd, hprim]
      rcases h with h | h <;> (repeat' split) <;> simp_all

theorem store_preset_result_none_iff {s : GroupingSettings} {a p : String}
    (hadd : s.add = some a) (hprim : s.primary_output_id = some p) :
    ((store_preset s).1 = none ↔ s.name = "") := by
  unfold store_preset
  simp only [hadd, hprim]
  (repeat' split) <;> simp_all [List.length_append] <;>
    first
      | exact string_ne_empty_of_length (by omega)
      | exact string_eq_empty_of_length (by omega)

/-- Counterexample to C3 as stated: with an empty name, no selection, and both
`add` and `primary_output_id` filled in, `store_preset` does return the
not-ready signal but mutates `output_ids` in place (normalisation happens
before the name check), so the state is not left unchanged. -/
theorem C3_counterexample :
    (store_preset empty_name_settings).1 = none ∧
    empty_name_settings.output_ids = [] ∧
    (store_preset empty_name_settings).2.output_ids = ["A", "B"] :=
  ⟨rfl, rfl, rfl⟩

/-- C3 (amended): when `add` or `primary_output_id` is unset, `store_preset` is a
complete no-op returning `none`.  Otherwise, whenever the name is empty or no
preset is selected, `presets` and `selected` are left unchanged (though
`output_ids` may be normalised in place), and the result is `none` exactly when
the name is empty. -/
theorem C3_store_preset_not_ready (s : GroupingSettings) :
    ((s.add = none ∨ s.primary_output_id = none) → store_preset s = (none, s)) ∧
    ((s.name = "" ∨ s.selected = none) →
      (store_preset s).2.presets = s.presets ∧ (store_preset s).2.selected = s.selected) ∧
    (s.name = "" → (store_preset s).1 = none) := by
  refine ⟨store_preset_not_actionable, store_preset_presets_selected, ?_⟩
  intro h
  cases hadd : s.add with
  | none => rw [store_preset_not_actionable (Or.inl hadd)]
  | some a =>
    cases hprim : s.primary_output_id with
    | none => rw [store_preset_not_actionable (Or.inr hprim)]
    | some p => exact (store_preset_result_none_iff hadd hprim).mpr h

/-- Witness for C3 at the all-default settings (empty name, nothing set). -/
theorem C3_store_preset_not_ready_witness :
    store_preset (default : GroupingSettings) = (none, (default : GroupingSettings)) :=
  (C3_store_preset_not_ready (default : GroupingSettings)).1 (Or.inl rfl)

/-- C8: applying `store_preset` twice yields the same `output_ids` as applying it
once; the second call appends neither the primary output nor `add` again. -/
theorem C8_store_preset_idempotent_output_ids (s : GroupingSettings) :
    (store_preset (store_preset s).2).2.output_ids = (store_preset s).2.output_ids := by
  cases hadd : s.add with
  | none =>
    rw [store_preset_not_actionable (Or.inl hadd), store_preset_not_actionable (Or.inl hadd)]
  | some a =>
    cases hprim : s.primary_output_id with
    | none =>
      rw [store_preset_not_actionable (Or.inr hprim), store_preset_not_actionable (Or.inr hprim)]
    | some p =>
      obtain ⟨ha1, hp1, -⟩ := store_preset_preserves_inputs s
      exact store_preset_output_ids_noop (ha1.trans hadd) (hp1.trans hprim)
        (store_preset_output_ids_nonempty hadd hprim)
        (store_preset_output_ids_mem hadd hprim)

/-- C9: the create-preset scenario of the spec: from the empty state with
`add = "B"`, `primary_output_id = "A"`, `name = "Kitchen"`, `selected = 0`,
`store_preset` stores `{name: Kitchen, output_ids: [A, B], volume_type:
Untouched, volumes: empty}` at index 0 and keeps `selected = 0`. -/
theorem C9_create_preset_scenario :
    (store_preset create_settings).1 = some () ∧
    (store_preset create_settings).2.presets =
      [{ name := "Kitchen", output_ids := ["A", "B"],
         volume_type := VolumeType.Untouched, volumes := [] }] ∧
    (store_preset create_settings).2.selected = some 0 :=
  ⟨rfl, rfl, rfl⟩

/-- C10: whenever `store_preset` stores (name non-empty, `add`, `primary_output_id`
and `selected` set), the preset written at the resulting selected index has
`volume_type = Untouched` and an empty `volumes` map — any previously captured
volume policy for that slot is discarded. -/
theorem C10_stored_preset_resets_volume_policy (s : GroupingSettings) (a p : String) (i : Nat)
    (hname : 0 < s.name.length) (hadd : s.add = some a) (hprim : s.primary_output_id = some p)
    (hsel : s.selected = some i) :
    (store_preset s).1 = some () ∧
    ∃ j, (store_preset s).2.selected = some j ∧ j < (store_preset s).2.presets.length ∧
      ((store_preset s).2.presets.getD j default).volume_type = VolumeType.Untouched ∧
      ((store_preset s).2.presets.getD j default).volumes = [] := by
  unfold store_preset
  simp only [hadd, hprim, hsel]
  (repeat' split) <;> simp_all [List.length_append]

/-- Witness for C10 at the create-preset scenario input. -/
theorem C10_stored_preset_resets_volume_policy_witness :
    (store_preset create_settings).1 = some () ∧
    ∃ j, (store_preset create_settings).2.selected = some j ∧
      j < (store_preset create_settings).2.presets.length ∧
      ((store_preset create_settings).2.presets.getD j default).volume_type =
        VolumeType.Untouched ∧
      ((store_preset create_settings).2.presets.getD j default).volumes = [] :=
  C10_stored_preset_resets_volume_policy create_settings "B" "A" 0 (by decide) rfl rfl rfl

theorem preset_volumes_wf_insert {pr : Preset} {k : String} {v : Int}
    (hwf : preset_volumes_wf pr) (hk : k ∈ pr.output_ids) :
    preset_volumes_wf { pr with volumes := hashmap_insert pr.volumes k v } := by
  intro kv hkv
  rcases mem_of_hashmap_insert hkv with rfl | h
  · simpa using hk
  · exact hwf kv h

theorem settings_volumes_wf_set {s : GroupingSettings} {i : Nat} {pr : Preset}
    (hwf : settings_volumes_wf s) (hpr : preset_volumes_wf pr) :
    ∀ p ∈ s.presets.set i pr, preset_volumes_wf p := by
  intro p hp
  rcases List.mem_or_eq_of_mem_set hp with h | rfl
  · exact hwf p h
  · exact hpr

theorem preset_getD_wf {s : GroupingSettings} {i : Nat}
    (hwf : settings_volumes_wf s) (hlt : i < s.presets.length) :
    preset_volumes_wf (s.presets.getD i default) := by
  rw [List.getD_eq_getElem _ _ hlt]
  exact hwf _ (List.getElem_mem hlt)

theorem store_preset_preserves_wf (s : GroupingSettings)
    (hwf : settings_volumes_wf s) : settings_volumes_wf (store_preset s).2 := by
  cases hadd : s.add with
  | none => rw [store_preset_not_actionable (Or.inl hadd)]; exact hwf
  | some a =>
    cases hprim : s.primary_output_id with
    | none => rw [store_preset_not_actionable (Or.inr hprim)]; exact hwf
    | some p =>
      unfold store_preset
      simp only [hadd, hprim]
      (repeat' split) <;>
        simp_all [settings_volumes_wf] <;>
        intro q hq <;>
        first
          | exact settings_volumes_wf_set hwf (by intro kv hkv; simp at hkv) q hq
          | (rcases hq with h | rfl
             · exact hwf q h
             · intro kv hkv
               simp at hkv)

theorem store_volume_preserves_wf (s : GroupingSettings) (outputs : List (String × Output))
    (hwf : settings_volumes_wf s)
    (hvol : ∀ v i, s.volume_output_id = some v → s.selected = some i →
      i < s.presets.length → v ∈ (s.presets.getD i default).output_ids) :
    settings_volumes_wf (store_volume s outputs).2 := by
  unfold store_volume
  cases hsel : s.selected with
  | none => exact hwf
  | some i =>
    try dsimp only
    by_cases hlt : i < s.presets.length
    · rw [if_pos hlt]
      try dsimp only
      have hwf1 : ∀ vt, preset_volumes_wf
          { s.presets.getD i default with volume_type := vt } :=
        fun vt kv hkv => preset_getD_wf hwf hlt kv hkv
      cases hvt : s.volume_type with
      | Untouched => exact settings_volumes_wf_set hwf (hwf1 _)
      | LastUsed => exact settings_volumes_wf_set hwf (hwf1 _)
      | Preset =>
        cases hvid : s.volume_output_id with
        | none => exact settings_volumes_wf_set hwf (hwf1 _)
        | some vid =>
          try dsimp only
          have hmem : vid ∈ (s.presets.getD i default).output_ids := hvol vid i hvid hsel hlt
          split
          · exact settings_volumes_wf_set hwf (hwf1 _)
          · rename_i settings2 hseed
            split at hseed
            · cases hlk : List.lookup vid outputs with
              | none => rw [hlk] at hseed; exact absurd hseed (by simp)
              | some output =>
                rw [hlk] at hseed
                have hs2 := Option.some.inj hseed
                subst hs2
                try dsimp only
                split
                · intro q hq
                  simp only [List.set_set] at hq
                  exact settings_volumes_wf_set hwf
                    (preset_volumes_wf_insert (hwf1 VolumeType.Preset) hmem) q hq
                · exact settings_volumes_wf_set hwf (hwf1 _)
            · have hs2 := Option.some.inj hseed
              subst hs2
              try dsimp only
              split
              · intro q hq
                simp only [List.set_set] at hq
                exact settings_volumes_wf_set hwf
                  (preset_volumes_wf_insert (hwf1 VolumeType.Preset) hmem) q hq
              · exact settings_volumes_wf_set hwf (hwf1 _)
    · rw [if_neg hlt]
      exact hwf

theorem load_preset_preserves_wf (s : GroupingSettings) (outputs : List (String × Output))
    (hwf : settings_volumes_wf s)
    (hvol : ∀ v i, s.volume_output_id = some v → s.selected = some i →
      i < s.presets.length → v ∈ (s.presets.getD i default).output_ids) :
    ∀ s', load_preset s outputs = some s' → settings_volumes_wf s' := by
  unfold load_preset
  cases hsel : s.selected with
  | none =>
    intro s' h
    cases Option.some.inj h
    exact hwf
  | some i =>
    try dsimp only
    by_cases hlt : i < s.presets.length
    · rw [if_pos hlt]
      try dsimp only
      cases hids : (s.presets.getD i default).output_ids with
      | nil => intro s' h; simp at h
      | cons first rest =>
        try dsimp only
        cases hvid : s.volume_output_id with
        | none =>
          intro s' h
          cases Option.some.inj h
          exact fun q hq => hwf q hq
        | some vid =>
          try dsimp only
          cases hpv : List.lookup vid (s.presets.getD i default).volumes with
          | some lvl =>
            intro s' h
            cases Option.some.inj h
            exact fun q hq => hwf q hq
          | none =>
            cases hlk : List.lookup vid outputs with
            | none =>
              intro s' h
              cases Option.some.inj h
              exact fun q hq => hwf q hq
            | some output =>
              intro s' h
              cases Option.some.inj h
              intro q hq
              refine settings_volumes_wf_set hwf ?_ q hq
              intro kv hkv
              rcases mem_of_hashmap_insert hkv with rfl | hk
              · have hv := hvol vid i hvid hsel hlt
                rw [hids] at hv
                simpa using hv
              · have hw := preset_getD_wf hwf hlt kv hk
                rw [hids] at hw
                exact hw
    · rw [if_neg hlt]
      cases hext : s.extracted_preset with
      | some pr =>
        cases hids : pr.output_ids with
        | nil =>
          intro s' h
          simp [hids] at h
        | cons f r =>
          intro s' h
          dsimp only at h
          rw [hids] at h
          cases Option.some.inj h
          exact fun q hq => hwf q hq
      | none =>
        intro s' h
        cases Option.some.inj h
        exact fun q hq => hwf q hq

/-- Counterexample to C6 as stated: `store_volume` inserts `volume_output_id` into
the selected preset even when that id is not one of the preset output ids, so the
invariant is not preserved for arbitrary inputs. -/
theorem C6_counterexample :
    settings_volumes_wf stray_volume_settings ∧
    ¬ settings_volumes_wf (store_volume stray_volume_settings two_outputs).2 := by
  constructor
  · decide
  · decide

/-- C6 (amended): the volumes-keys-in-output-ids invariant is preserved by
`store_preset` unconditionally, and by `store_volume` and `load_preset` whenever
`volume_output_id`, when set, is a member of the selected preset output ids. -/
theorem C6_volumes_invariant_preservation (s : GroupingSettings)
    (outputs : List (String × Output))
    (hwf : settings_volumes_wf s)
    (hvol : ∀ v i, s.volume_output_id = some v → s.selected = some i →
      i < s.presets.length → v ∈ (s.presets.getD i default).output_ids) :
    settings_volumes_wf (store_preset s).2 ∧
    settings_volumes_wf (store_volume s outputs).2 ∧
    ∀ s', load_preset s outputs = some s' → settings_volumes_wf s' :=
  ⟨store_preset_preserves_wf s hwf, store_volume_preserves_wf s outputs hwf hvol,
   load_preset_preserves_wf s outputs hwf hvol⟩

/-- Witness for C6 at the `LastUsed` edit state (no volume output chosen). -/
theorem C6_volumes_invariant_preservation_witness :
    settings_volumes_wf (store_preset lastused_settings).2 ∧
    settings_volumes_wf (store_volume lastused_settings []).2 ∧
    ∀ s', load_preset lastused_settings [] = some s' → settings_volumes_wf s' :=
  C6_volumes_invariant_preservation lastused_settings [] (by decide)
    (fun v i hv => Option.noConfusion hv)

/-- Counterexample to C5 as stated: with `volume_type = LastUsed` and a valid
selection, `store_volume` returns `none` but still overwrites the stored preset
`volume_type` (the write happens before the `Preset`-mode check). -/
theorem C5_counterexample :
    (store_volume lastused_settings []).1 = none ∧
    (lastused_settings.presets.getD 0 default).volume_type = VolumeType.Untouched ∧
    ((store_volume lastused_settings []).2.presets.getD 0 default).volume_type =
      VolumeType.LastUsed :=
  ⟨rfl, rfl, rfl⟩

/-- C5 (amended): when `selected` indexes an existing preset but `volume_type` is
`Untouched` or `LastUsed`, `store_volume` returns `none` and changes nothing except
that it overwrites the selected preset `volume_type` with the form value; the
volumes map and every other field are unchanged. -/
theorem C5_store_volume_non_preset (s : GroupingSettings) (outputs : List (String × Output))
    (i : Nat) (hsel : s.selected = some i) (hlt : i < s.presets.length)
    (hvt : s.volume_type = VolumeType.Untouched ∨ s.volume_type = VolumeType.LastUsed) :
    (store_volume s outputs).1 = none ∧
    (store_volume s outputs).2 =
      { s with
          presets := s.presets.set i
            { s.presets.getD i default with volume_type := s.volume_type } } := by
  unfold store_volume
  rw [hsel]
  try dsimp only
  rw [if_pos hlt]
  try dsimp only
  rcases hvt with h | h <;> rw [h] <;> try dsimp only
  · exact ⟨rfl, rfl⟩
  · exact ⟨rfl, rfl⟩

/-- Witness for C5 at the `LastUsed` edit state. -/
theorem C5_store_volume_non_preset_witness :
    (store_volume lastused_settings []).1 = none ∧
    (store_volume lastused_settings []).2 =
      { lastused_settings with
          presets := lastused_settings.presets.set 0
            { lastused_settings.presets.getD 0 default with
                volume_type := lastused_settings.volume_type } } :=
  C5_store_volume_non_preset lastused_settings [] 0 rfl (by decide) (Or.inr rfl)

/-- Counterexample to C4 as stated: loading an existing preset leaves `action`
untouched (here `Activate`, not reset to `Edit`) and clears `add` to `none`
instead of seeding it with the first output. -/
theorem C4_counterexample :
    (load_preset activate_settings []).map (fun s => (s.action, s.add)) =
      some (Action.Activate, none) ∧
    Action.Activate ≠ Action.Edit :=
  ⟨rfl, by decide⟩

/-- C4 (amended): when `selected` indexes an existing preset with a non-empty
output list, `load_preset` repopulates `name`, `primary_output_id` and
`output_ids` from that preset and clears `add` to `none`; `action` is left
unchanged (it is reset to `Edit` only in the extracted-preset and blank
branches). -/
theorem C4_load_preset_existing (s : GroupingSettings) (outputs : List (String × Output))
    (i : Nat) (first : String) (rest : List String)
    (hsel : s.selected = some i) (hlt : i < s.presets.length)
    (hids : (s.presets.getD i default).output_ids = first :: rest) :
    ∃ s', load_preset s outputs = some s' ∧
      s'.name = (s.presets.getD i default).name ∧
      s'.primary_output_id = some first ∧
      s'.output_ids = first :: rest ∧
      s'.add = none ∧
      s'.action = s.action := by
  unfold load_preset
  rw [hsel]
  try dsimp only
  rw [if_pos hlt]
  try dsimp only
  rw [hids]
  try dsimp only
  (repeat' split) <;> simp_all

/-- Witness for C4 at the `Activate` edit state over preset 0. -/
theorem C4_load_preset_existing_witness :
    ∃ s', load_preset activate_settings [] = some s' ∧
      s'.name = (activate_settings.presets.getD 0 default).name ∧
      s'.primary_output_id = some "A" ∧
      s'.output_ids = ["A"] ∧
      s'.add = none ∧
      s'.action = activate_settings.action :=
  C4_load_preset_existing activate_settings [] 0 "A" [] rfl (by decide) rfl

theorem lookup_entry_isSome {outputs : List (String × Output)} {oid : String}
    (h : (List.lookup oid outputs).isSome) :
    (match List.lookup oid outputs with
      | none => none
      | some o => some (⟨o.display_name, JsonValue.str oid⟩ : SettingOption)).isSome := by
  obtain ⟨o, ho⟩ := Option.isSome_iff_exists.mp h
  rw [ho]
  rfl

theorem group_with_values_isSome {output : Output} {primary_output_id : String}
    {outputs : List (String × Output)}
    (h : ∀ gid ∈ output.can_group_with_output_ids, (List.lookup gid outputs).isSome) :
    (group_with_values output primary_output_id outputs).isSome := by
  unfold group_with_values
  have hm := map_option_isSome (f := fun output_id =>
      (match List.lookup output_id outputs with
        | none => none
        | some o => some (⟨o.display_name, JsonValue.str output_id⟩ : SettingOption)))
    (l := output.can_group_with_output_ids.filter (fun output_id => output_id ≠ primary_output_id))
    (fun x hx => lookup_entry_isSome (h x (List.mem_of_mem_filter hx)))
  obtain ⟨opts, hopts⟩ := Option.isSome_iff_exists.mp hm
  rw [hopts]
  rfl

theorem volume_output_values_isSome {output_ids : List String}
    {outputs : List (String × Output)}
    (h : ∀ oid ∈ output_ids, (List.lookup oid outputs).isSome) :
    (volume_output_values output_ids outputs).isSome := by
  unfold volume_output_values
  have hm := map_option_isSome (f := fun output_id =>
      (match List.lookup output_id outputs with
        | none => none
        | some o => some (⟨o.display_name, JsonValue.str output_id⟩ : SettingOption)))
    (l := output_ids)
    (fun x hx => lookup_entry_isSome (h x hx))
  obtain ⟨opts, hopts⟩ := Option.isSome_iff_exists.mp hm
  rw [hopts]
  rfl

theorem volume_level_widget_isSome {output_id : String} {volume_level : String}
    {outputs : List (String × Output)}
    (h : (List.lookup output_id outputs).isSome) :
    (volume_level_widget output_id volume_level outputs).isSome := by
  unfold volume_level_widget
  obtain ⟨o, ho⟩ := Option.isSome_iff_exists.mp h
  rw [ho]
  rfl

theorem grouped_label_isSome {settings : GroupingSettings} {primary_output_id : String}
    {outputs : List (String × Output)}
    (h : (List.lookup primary_output_id outputs).isSome) :
    (grouped_label settings primary_output_id outputs).isSome := by
  unfold grouped_label
  obtain ⟨o, ho⟩ := Option.isSome_iff_exists.mp h
  rw [ho]
  rfl

theorem edit_group_items_isSome (settings : GroupingSettings)
    (outputs : List (String × Output))
    (hprim : ∀ p, settings.primary_output_id = some p →
      ∃ o, List.lookup p outputs = some o ∧
        ∀ gid ∈ o.can_group_with_output_ids, (List.lookup gid outputs).isSome)
    (hids : ∀ oid ∈ settings.output_ids, (List.lookup oid outputs).isSome)
    (hvol : ∀ v, settings.volume_output_id = some v → (List.lookup v outputs).isSome) :
    (edit_group_items settings outputs).isSome := by
  unfold edit_group_items
  by_cases hname : 0 < settings.name.length
  · rw [if_pos hname]
    cases hp : settings.primary_output_id with
    | none => rfl
    | some p =>
      try dsimp only
      obtain ⟨o, ho, hcan⟩ := hprim p hp
      rw [ho]
      try dsimp only
      obtain ⟨gw, hgw⟩ := Option.isSome_iff_exists.mp (group_with_values_isSome hcan)
      rw [hgw]
      try dsimp only
      cases hvt : settings.volume_type with
      | Untouched => rfl
      | LastUsed => rfl
      | Preset =>
        try dsimp only
        obtain ⟨vv, hvv⟩ := Option.isSome_iff_exists.mp (volume_output_values_isSome hids)
        rw [hvv]
        try dsimp only
        cases hvid : settings.volume_output_id with
        | none => rfl
        | some vid =>
          try dsimp only
          obtain ⟨w, hw⟩ :=
            Option.isSome_iff_exists.mp (volume_level_widget_isSome (hvol vid hvid))
          rw [hw]
          rfl
  · rw [if_neg hname]
    rfl

theorem make_layout_isSome (settings : GroupingSettings) (outputs : List (String × Output))
    (hprim : ∀ p, settings.primary_output_id = some p →
      ∃ o, List.lookup p outputs = some o ∧
        ∀ gid ∈ o.can_group_with_output_ids, (List.lookup gid outputs).isSome)
    (hids : ∀ oid ∈ settings.output_ids, (List.lookup oid outputs).isSome)
    (hvol : ∀ v, settings.volume_output_id = some v → (List.lookup v outputs).isSome) :
    (make_layout settings outputs).isSome := by
  unfold make_layout
  cases hsel : settings.selected with
  | none => rfl
  | some sel =>
    try dsimp only
    have hedit : ∀ widgets : List Widget,
        (match settings.action with
          | Action.Edit =>
            match edit_group_items settings outputs with
            | none => none
            | some items => some (widgets ++ [Widget.Group "Preset Editor" none true items])
          | _ => some widgets).isSome := by
      intro widgets
      cases settings.action
      · obtain ⟨items, hitems⟩ :=
          Option.isSome_iff_exists.mp (edit_group_items_isSome settings outputs hprim hids hvol)
        rw [hitems]
        rfl
      · rfl
      · rfl
      · rfl
    have hlabel : ∀ widgets : List Widget,
        (match settings.primary_output_id with
          | some primary_output_id =>
            match grouped_label settings primary_output_id outputs with
            | none => none
            | some label => some (widgets ++ [label])
          | none => some widgets).isSome := by
      intro widgets
      cases hp : settings.primary_output_id with
      | none => rfl
      | some p =>
        try dsimp only
        obtain ⟨o, ho, -⟩ := hprim p hp
        obtain ⟨label, hl⟩ :=
          Option.isSome_iff_exists.mp (@grouped_label_isSome settings p outputs
            (by rw [ho]; rfl))
        rw [hl]
        rfl
    obtain ⟨w1, hw1⟩ := Option.isSome_iff_exists.mp (hedit
      (if sel = settings.presets.length then
        [Widget.Dropdown ⟨"Preset", none,
          ⟨"(select preset)", JsonValue.null⟩ ::
            ((List.range settings.presets.length).filterMap (fun index =>
              let name := (settings.presets.getD index default).name
              if 0 < name.length then some ⟨name, JsonValue.nat index⟩ else none)
            ++ [⟨"New Preset", JsonValue.nat settings.presets.length⟩]), "selected"⟩]
       else
        [Widget.Dropdown ⟨"Preset", none,
          ⟨"(select preset)", JsonValue.null⟩ ::
            ((List.range settings.presets.length).filterMap (fun index =>
              let name := (settings.presets.getD index default).name
              if 0 < name.length then some ⟨name, JsonValue.nat index⟩ else none)
            ++ [⟨"New Preset", JsonValue.nat settings.presets.length⟩]), "selected"⟩] ++
          [Widget.Dropdown ⟨"Action", none, action_values, "action"⟩]))
    rw [hw1]
    try dsimp only
    obtain ⟨w2, hw2⟩ := Option.isSome_iff_exists.mp (hlabel w1)
    rw [hw2]
    rfl

theorem load_preset_isSome (s : GroupingSettings) (outputs : List (String × Output))
    (hsel : ∀ i, s.selected = some i → i < s.presets.length →
      (s.presets.getD i default).output_ids ≠ [])
    (hext : ∀ pr, s.extracted_preset = some pr → pr.output_ids ≠ []) :
    (load_preset s outputs).isSome := by
  unfold load_preset
  cases hs : s.selected with
  | none => rfl
  | some i =>
    try dsimp only
    by_cases hlt : i < s.presets.length
    · rw [if_pos hlt]
      try dsimp only
      cases hids : (s.presets.getD i default).output_ids with
      | nil => exact absurd hids (hsel i hs hlt)
      | cons f r =>
        try dsimp only
        (repeat' split) <;> rfl
    · rw [if_neg hlt]
      cases hx : s.extracted_preset with
      | none => rfl
      | some pr =>
        try dsimp only
        cases hids : pr.output_ids with
        | nil => exact absurd hids (hext pr hx)
        | cons f r => rfl

/-- Counterexample to C7 as stated: with the primary output id absent from the
outputs map, `make_layout` hits an `unwrap` on a failed lookup, i.e. it panics
(modelled as `none`). -/
theorem C7_counterexample : make_layout missing_primary_settings [] = none := rfl

/-- C7 (amended): `make_layout` can panic when an output id referenced by the
settings is missing from the outputs map, and `load_preset` can panic when the
loaded preset has no outputs; both return normally whenever every referenced id
is present and the selected or extracted preset has a non-empty output list. -/
theorem C7_no_panic_when_ids_known (s : GroupingSettings) (outputs : List (String × Output))
    (hprim : ∀ p, s.primary_output_id = some p →
      ∃ o, List.lookup p outputs = some o ∧
        ∀ gid ∈ o.can_group_with_output_ids, (List.lookup gid outputs).isSome)
    (hids : ∀ oid ∈ s.output_ids, (List.lookup oid outputs).isSome)
    (hvol : ∀ v, s.volume_output_id = some v → (List.lookup v outputs).isSome)
    (hsel : ∀ i, s.selected = some i → i < s.presets.length →
      (s.presets.getD i default).output_ids ≠ [])
    (hext : ∀ pr, s.extracted_preset = some pr → pr.output_ids ≠ []) :
    (make_layout s outputs).isSome ∧ (load_preset s outputs).isSome :=
  ⟨make_layout_isSome s outputs hprim hids hvol, load_preset_isSome s outputs hsel hext⟩

/-- Witness for C7 at a fully consistent edit state over outputs "A" and "B". -/
theorem C7_no_panic_when_ids_known_witness :
    (make_layout (volume_preset_settings "50") two_outputs).isSome ∧
    (load_preset (volume_preset_settings "50") two_outputs).isSome :=
  C7_no_panic_when_ids_known (volume_preset_settings "50") two_outputs
    (fun p hp => by
      have h : some "A" = some p := hp
      cases Option.some.inj h
      exact ⟨out_A, rfl, by decide⟩)
    (by decide)
    (fun v hv => by
      have h : some "B" = some v := hv
      cases Option.some.inj h
      decide)
    (fun i hi => by
      have h : some 0 = some i := hi
      cases Option.some.inj h
      intro _
      decide)
    (fun pr hpr => Option.noConfusion hpr)

/-- C1: at the described edit state over an output with volume range 0..100,
entering "150" attaches the error text exactly "Volume level should be between 0
and 100" to the Volume Level field, yet the returned layout still reports
`has_error = false` (the flag is initialised to `false` and never set by
`make_layout`); entering "50" attaches no error and also yields
`has_error = false`. -/
theorem C1_volume_range_validation_behavior :
    ((make_layout (volume_preset_settings "150") two_outputs).map
        (fun l => (layout_integer_errors l, l.has_error)) =
      some ([some "Volume level should be between 0 and 100"], false)) ∧
    ((make_layout (volume_preset_settings "50") two_outputs).map
        (fun l => (layout_integer_errors l, l.has_error)) =
      some ([none], false)) :=
  ⟨rfl, rfl⟩

end ZP
